import Mathlib

/-!
Verification of the repository's two source modules:
`autogpt/commands/git_operations.py` and `autogpt/llm_utils.py`.

Pure string manipulation is embedded directly; the external effects
(the git clone primitive and the OpenAI chat/embedding endpoints) are
embedded as explicit function parameters from the request the code
builds to the outcome the provider reports, and Python exceptions are
embedded as the `Except` error channel.
-/

namespace GitOps

/-- Python `s.split("//")` on a list of characters: scans left to right,
splitting at each non-overlapping occurrence of the two-character
separator `//`.  `"".split("//") = ['']`, `"//".split("//") = ['', '']`. -/
def splitSS : List Char → List (List Char)
  | [] => [[]]
  | [c] => [[c]]
  | c :: d :: r =>
    if c = '/' ∧ d = '/' then
      [] :: splitSS r
    else
      match splitSS (d :: r) with
      | [] => [[c]]
      | x :: xs => (c :: x) :: xs

/-- Python `sep.join(parts)` on lists of characters. -/
def joinWith (sep : List Char) : List (List Char) → List Char
  | [] => []
  | [t] => t
  | t :: u :: ts => t ++ sep ++ joinWith sep (u :: ts)

/-- The authenticated URL built by `clone_repository`
(git_operations.py lines 29-30):
`auth_repo_url = f"//{username}:{api_key}@".join(repository_url.split("//"))`. -/
def cloneAuthUrl (repository_url github_username github_api_key : String) : String :=
  ⟨joinWith
      ('/' :: '/' :: (github_username.data ++ ':' :: github_api_key.data ++ ['@']))
      (splitSS repository_url.data)⟩

/-- Outcome of the external clone primitive `Repo.clone_from`. -/
inductive CloneOutcome where
  | ok : CloneOutcome
  | err (msg : String) : CloneOutcome
deriving DecidableEq

/-- The body of `clone_repository` (git_operations.py lines 18-35): builds the
authenticated URL, invokes the clone primitive on it and the clone path,
returns a confirmation string on success and `"Error: " ++ msg` when the
primitive fails (the `except Exception` clause). `cloneFrom` is the external
primitive, mapping (authenticated URL, clone path) to its outcome. -/
def clone_repository (cloneFrom : String → String → CloneOutcome)
    (github_username github_api_key repository_url clone_path : String) : String :=
  let auth_repo_url := cloneAuthUrl repository_url github_username github_api_key
  match cloneFrom auth_repo_url clone_path with
  | .ok => "Cloned " ++ repository_url ++ " to " ++ clone_path
  | .err e => "Error: " ++ e

/-- `s` does not contain `//` as a contiguous substring. -/
def noDoubleSlash (s : String) : Prop := ¬ (['/', '/'] <:+: s.data)

instance (s : String) : Decidable (noDoubleSlash s) := by
  unfold noDoubleSlash; infer_instance

lemma splitSS_no_sep (l : List Char) (h : ¬ (['/', '/'] <:+: l)) :
    splitSS l = [l] := by
  induction l with
  | nil => rfl
  | cons c tl ih =>
    cases tl with
    | nil => rfl
    | cons d r =>
      have hcd : ¬ (c = '/' ∧ d = '/') := by
        rintro ⟨rfl, rfl⟩
        exact h ⟨[], r, rfl⟩
      have htl : ¬ (['/', '/'] <:+: d :: r) := fun hin => h (List.infix_cons hin)
      rw [splitSS, if_neg hcd, ih htl]

lemma splitSS_append (s t : List Char)
    (h : ¬ (['/', '/'] <:+: (s ++ ['/']))) :
    splitSS (s ++ '/' :: '/' :: t) = s :: splitSS t := by
  induction s with
  | nil => simp [splitSS]
  | cons c s' ih =>
    cases s' with
    | nil =>
      have hc : c ≠ '/' := by
        rintro rfl
        exact h ⟨[], [], rfl⟩
      have hcd : ¬ (c = '/' ∧ '/' = '/') := fun hx => hc hx.1
      show splitSS (c :: '/' :: '/' :: t) = [c] :: splitSS t
      rw [splitSS, if_neg hcd, splitSS, if_pos ⟨rfl, rfl⟩]
    | cons d s'' =>
      have htl : ¬ (['/', '/'] <:+: ((d :: s'') ++ ['/'])) := fun hin =>
        h (List.infix_cons hin)
      have hcd : ¬ (c = '/' ∧ d = '/') := by
        rintro ⟨rfl, rfl⟩
        exact h ⟨[], s'' ++ ['/'], rfl⟩
      have hrec := ih htl
      simp only [List.cons_append] at hrec ⊢
      rw [splitSS, if_neg hcd, hrec]

lemma cloneAuthUrl_single (scheme rest u k : String)
    (h1 : noDoubleSlash (scheme ++ "/")) (h2 : noDoubleSlash rest) :
    cloneAuthUrl (scheme ++ "//" ++ rest) u k =
      scheme ++ "//" ++ u ++ ":" ++ k ++ "@" ++ rest := by
  apply String.ext
  have hdata : (scheme ++ "//" ++ rest).data = scheme.data ++ '/' :: '/' :: rest.data := by
    simp [String.data_append]
  have h1' : ¬ (['/', '/'] <:+: (scheme.data ++ ['/'])) := by
    have := h1
    unfold noDoubleSlash at this
    simpa [String.data_append] using this
  have hsplit : splitSS (scheme ++ "//" ++ rest).data = [scheme.data, rest.data] := by
    rw [hdata, splitSS_append _ _ h1', splitSS_no_sep _ h2]
  show (joinWith _ (splitSS (scheme ++ "//" ++ rest).data)) = _
  rw [hsplit]
  simp [joinWith, String.data_append]

lemma splitSS_double (s1 s2 s3 : List Char)
    (h1 : ¬ (['/', '/'] <:+: (s1 ++ ['/'])))
    (h2 : ¬ (['/', '/'] <:+: (s2 ++ ['/'])))
    (h3 : ¬ (['/', '/'] <:+: s3)) :
    splitSS (s1 ++ '/' :: '/' :: (s2 ++ '/' :: '/' :: s3)) = [s1, s2, s3] := by
  rw [splitSS_append _ _ h1, splitSS_append _ _ h2, splitSS_no_sep _ h3]

/-- C1 counterexample: on the URL `https://host//path`, which contains `//`
twice, the credentials are NOT inserted exactly once after the scheme; the
code inserts them at the second occurrence as well. -/
theorem clone_credentials_once_counterexample :
    cloneAuthUrl "https://host//path" "u" "k" ≠ "https://u:k@host//path" ∧
    cloneAuthUrl "https://host//path" "u" "k" = "https://u:k@host//u:k@path" := by
  constructor
  · decide
  · decide

/-- C1 amended: `clone` splits the URL at EVERY occurrence of `//` and
re-joins with `//username:apikey@`, so the credentials are inserted at each
occurrence of `//`, not only after the scheme.  Shown here for a URL with two
occurrences: the credentials appear twice. -/
theorem clone_inserts_credentials_at_every_separator
    (scheme mid rest u k : String)
    (h1 : noDoubleSlash (scheme ++ "/"))
    (h2 : noDoubleSlash (mid ++ "/"))
    (h3 : noDoubleSlash rest) :
    cloneAuthUrl (scheme ++ "//" ++ mid ++ "//" ++ rest) u k =
      scheme ++ "//" ++ u ++ ":" ++ k ++ "@" ++ mid ++
        "//" ++ u ++ ":" ++ k ++ "@" ++ rest := by
  apply String.ext
  have h1' : ¬ (['/', '/'] <:+: (scheme.data ++ ['/'])) := by
    have := h1; unfold noDoubleSlash at this
    simpa [String.data_append] using this
  have h2' : ¬ (['/', '/'] <:+: (mid.data ++ ['/'])) := by
    have := h2; unfold noDoubleSlash at this
    simpa [String.data_append] using this
  have hdata : (scheme ++ "//" ++ mid ++ "//" ++ rest).data =
      scheme.data ++ '/' :: '/' :: (mid.data ++ '/' :: '/' :: rest.data) := by
    simp [String.data_append]
  show (joinWith _ (splitSS (scheme ++ "//" ++ mid ++ "//" ++ rest).data)) = _
  rw [hdata, splitSS_double _ _ _ h1' h2' h3]
  simp [joinWith, String.data_append]

/-- C1 amended claim, witnessed on the URL `https://host//path`. -/
theorem clone_inserts_credentials_at_every_separator_witness :
    noDoubleSlash ("https:" ++ "/") ∧ noDoubleSlash ("host" ++ "/") ∧
      noDoubleSlash "path" ∧
      cloneAuthUrl ("https:" ++ "//" ++ "host" ++ "//" ++ "path") "u" "k" =
        "https:" ++ "//" ++ "u" ++ ":" ++ "k" ++ "@" ++ "host" ++
          "//" ++ "u" ++ ":" ++ "k" ++ "@" ++ "path" :=
  ⟨by decide, by decide, by decide,
    clone_inserts_credentials_at_every_separator "https:" "host" "path" "u" "k"
      (by decide) (by decide) (by decide)⟩

/-- C2: for a URL of the form `scheme//rest` containing a single `//`
(the scheme contains no `//` and does not end in `/`; the remainder contains
no `//`), the authenticated URL is `scheme//u:k@rest`; moreover that is
exactly the URL `clone_repository` hands to the clone primitive, observed
here through a primitive that echoes the URL it receives in its failure
message. -/
theorem clone_single_separator_auth_url (scheme rest u k path : String)
    (h1 : noDoubleSlash (scheme ++ "/")) (h2 : noDoubleSlash rest) :
    cloneAuthUrl (scheme ++ "//" ++ rest) u k =
        scheme ++ "//" ++ u ++ ":" ++ k ++ "@" ++ rest ∧
      clone_repository (fun a _ => .err a) u k (scheme ++ "//" ++ rest) path =
        "Error: " ++ (scheme ++ "//" ++ u ++ ":" ++ k ++ "@" ++ rest) := by
  have he := cloneAuthUrl_single scheme rest u k h1 h2
  exact ⟨he, by simp [clone_repository, he]⟩

/-- C2 witnessed on `https://github.com/a/b` with credentials `user:key`. -/
theorem clone_single_separator_auth_url_witness :
    noDoubleSlash ("https:" ++ "/") ∧ noDoubleSlash "github.com/a/b" ∧
      cloneAuthUrl ("https:" ++ "//" ++ "github.com/a/b") "user" "key" =
        "https:" ++ "//" ++ "user" ++ ":" ++ "key" ++ "@" ++ "github.com/a/b" :=
  ⟨by decide, by decide,
    (clone_single_separator_auth_url "https:" "github.com/a/b" "user" "key" "p"
      (by decide) (by decide)).1⟩

/-- C3: `clone_repository` is a total function of the primitive's outcome
(the `except Exception` clause catches every failure, so no fault reaches
the caller): when the primitive succeeds it returns the confirmation string
naming the source URL and the destination path, and when the primitive
fails with message `m` it returns `"Error: " ++ m`. -/
theorem clone_never_raises (cloneFrom : String → String → CloneOutcome)
    (u k url path : String) :
    (cloneFrom (cloneAuthUrl url u k) path = .ok ∧
        clone_repository cloneFrom u k url path =
          "Cloned " ++ url ++ " to " ++ path) ∨
      (∃ m, cloneFrom (cloneAuthUrl url u k) path = .err m ∧
        clone_repository cloneFrom u k url path = "Error: " ++ m) := by
  cases h : cloneFrom (cloneAuthUrl url u k) path with
  | ok => exact Or.inl ⟨rfl, by simp [clone_repository, h]⟩
  | err m => exact Or.inr ⟨m, rfl, by simp [clone_repository, h]⟩

end GitOps

namespace LLMUtils

/-- One chat message, a dict `{"role": ..., "content": ...}`. -/
structure Message where
  role : String
  content : String
deriving DecidableEq

/-- The fields of the `autogpt` Config object that `llm_utils.py` reads.
`get_azure_deployment_id_for_model` is the azure-deployment-id lookup keyed
by model name.  Temperature values only flow through unchanged, so they are
embedded as rationals. -/
structure Config where
  fast_llm_model : String
  smart_llm_model : String
  openai_api_key : String
  temperature : Rat
  use_azure : Bool
  debug_mode : Bool
  get_azure_deployment_id_for_model : String → String

/-- The keyword arguments of the `openai.ChatCompletion.create` call that
`create_chat_completion` issues; a field is `none` when the corresponding
keyword is not passed on that path. -/
structure ChatRequest where
  deployment_id : Option String
  model : Option String
  messages : List Message
  temperature : Rat
  max_tokens : Option Nat
  api_key : Option String
deriving DecidableEq

/-- One entry of the `choices` list of a chat response, with the metadata
fields the API returns besides the message. -/
structure Choice where
  index : Nat
  finish_reason : String
  message : Message
deriving DecidableEq

/-- A provider chat response: the `choices` list plus other response
metadata (id, token usage) that the code never reads. -/
structure ChatResponse where
  id : String
  usage : Nat
  choices : List Choice
deriving DecidableEq

/-- What one call to the chat endpoint does: returns a response, or raises
`RateLimitError` or `APIError` (the two exception classes imported from
`openai.error`). -/
inductive ProviderResult where
  | success (r : ChatResponse)
  | rateLimit (msg : String)
  | apiError (msg : String)
deriving DecidableEq

/-- A Python exception escaping a gateway function: the re-raised
`RateLimitError` / `APIError`, or an `IndexError` from subscripting an
empty `choices` / `data` list. -/
inductive Fault where
  | rateLimit (msg : String)
  | apiError (msg : String)
  | indexError
deriving DecidableEq

/-- The request `create_chat_completion` builds (llm_utils.py lines 65-93):
`model` defaults to the literal `"gpt-3.5-turbo"` and is replaced by
`cfg.fast_llm_model` when it is `None`; `temperature` defaults to `None`
and is replaced by `cfg.temperature`; the azure branch passes
`deployment_id=cfg.get_azure_deployment_id_for_model(model)` together with
`model`, the direct branch passes `model` and `api_key=cfg.openai_api_key`. -/
def chatRequest (cfg : Config) (messages : List Message)
    (model : Option String := some "gpt-3.5-turbo")
    (temperature : Option Rat := none)
    (max_tokens : Option Nat := none) : ChatRequest :=
  let m := match model with
    | none => cfg.fast_llm_model
    | some s => s
  let t := match temperature with
    | none => cfg.temperature
    | some x => x
  if cfg.use_azure then
    ⟨some (cfg.get_azure_deployment_id_for_model m), some m, messages, t,
      max_tokens, none⟩
  else
    ⟨none, some m, messages, t, max_tokens, some cfg.openai_api_key⟩

/-- `create_chat_completion` (llm_utils.py lines 46-111): issues the built
request to the provider (`provider` embeds the external
`openai.ChatCompletion.create` endpoint); a rate-limit or API fault is
logged and re-raised (the `Except.error` channel), and on success the
function returns `response.choices[0].message["content"]`, an `IndexError`
when `choices` is empty. -/
def create_chat_completion (cfg : Config) (messages : List Message)
    (provider : ChatRequest → ProviderResult)
    (model : Option String := some "gpt-3.5-turbo")
    (temperature : Option Rat := none)
    (max_tokens : Option Nat := none) : Except Fault String :=
  match provider (chatRequest cfg messages model temperature max_tokens) with
  | .success r =>
    match r.choices with
    | [] => .error .indexError
    | c :: _ => .ok c.message.content
  | .rateLimit m => .error (.rateLimit m)
  | .apiError m => .error (.apiError m)

/-- A Python argument value passed to `call_ai_function`: `None`, an
integer, or a string. -/
inductive PyArg where
  | pynone
  | pyint (n : Int)
  | pystr (s : String)
deriving DecidableEq

/-- `str(arg) if arg is not None else "None"` (llm_utils.py line 28). -/
def PyArg.render : PyArg → String
  | .pynone => "None"
  | .pyint n => toString n
  | .pystr s => s

/-- `call_ai_function` (llm_utils.py lines 9-41): renders each argument to
text (`None` as the literal `"None"`), joins them with `", "`, builds the
two-message conversation and delegates to `create_chat_completion` with
temperature 0 and the given model, defaulting to `cfg.smart_llm_model`. -/
def call_ai_function (function : String) (args : List PyArg)
    (description : String) (cfg : Config)
    (provider : ChatRequest → ProviderResult)
    (model : Option String := none) : Except Fault String :=
  let m := match model with
    | none => cfg.smart_llm_model
    | some s => s
  let rendered := args.map PyArg.render
  let sargs := String.intercalate ", " rendered
  let messages : List Message :=
    [⟨"system",
      "You are now the following python function: ```# " ++ description ++
        "\n" ++ function ++ "```\n\nOnly respond with your `return` value."⟩,
     ⟨"user", sargs⟩]
  create_chat_completion cfg messages provider (some m) (some 0) none

/-- One entry of the `data` list of an embedding response; the embedding
vector's floating-point entries only flow through unchanged, so they are
embedded as rationals. -/
structure EmbeddingEntry where
  index : Nat
  embedding : List Rat
deriving DecidableEq

/-- A provider embedding response: the `data` list plus metadata the code
never reads. -/
structure EmbeddingResponse where
  model : String
  data : List EmbeddingEntry
deriving DecidableEq

/-- The keyword arguments of the `openai.Embedding.create` call that
`create_embedding_with_ada` issues; a field is `none` when the
corresponding keyword is not passed on that path. -/
structure EmbeddingRequest where
  input : List String
  engine : Option String
  model : Option String
  api_key : Option String
deriving DecidableEq

/-- What one call to the embedding endpoint does. -/
inductive EmbProviderResult where
  | success (r : EmbeddingResponse)
  | rateLimit (msg : String)
  | apiError (msg : String)
deriving DecidableEq

/-- The request `create_embedding_with_ada` builds (llm_utils.py lines
116-129): the azure branch passes `input=[text]` and
`engine=cfg.get_azure_deployment_id_for_model("text-embedding-ada-002")`,
the direct branch passes `input=[text]`, `model="text-embedding-ada-002"`
and `api_key=cfg.openai_api_key`. -/
def embeddingRequest (cfg : Config) (text : String) : EmbeddingRequest :=
  if cfg.use_azure then
    ⟨[text], some (cfg.get_azure_deployment_id_for_model "text-embedding-ada-002"),
      none, none⟩
  else
    ⟨[text], none, some "text-embedding-ada-002", some cfg.openai_api_key⟩

/-- `create_embedding_with_ada` (llm_utils.py lines 114-135): issues the
request, re-raises rate-limit and API faults after logging, and on success
returns `response["data"][0]["embedding"]`, an `IndexError` when `data` is
empty. -/
def create_embedding_with_ada (text : String) (cfg : Config)
    (provider : EmbeddingRequest → EmbProviderResult) :
    Except Fault (List Rat) :=
  match provider (embeddingRequest cfg text) with
  | .success r =>
    match r.data with
    | [] => .error .indexError
    | e :: _ => .ok e.embedding
  | .rateLimit m => .error (.rateLimit m)
  | .apiError m => .error (.apiError m)

/-- A sample configuration with the direct (non-azure) path selected. -/
def cfgDirect : Config :=
  ⟨"fast-model", "smart-model", "sk-key", 1 / 2, false, false,
    fun m => "azure-" ++ m⟩

/-- A sample configuration with the azure path selected. -/
def cfgAzure : Config :=
  ⟨"fast-model", "smart-model", "sk-key", 1 / 2, true, false,
    fun m => "azure-" ++ m⟩

/-- A sample chat response with two choices and response metadata. -/
def sampleResponse : ChatResponse :=
  ⟨"chatcmpl-1", 42,
    [⟨0, "stop", ⟨"assistant", "hello"⟩⟩, ⟨1, "stop", ⟨"assistant", "other"⟩⟩]⟩

/-- C4: whenever the provider returns a response whose `choices` list is
non-empty, `create_chat_completion` returns exactly the text content of the
choice at index 0; the remaining choices and the response metadata are
universally quantified here, so they have no effect on the value. -/
theorem chat_completion_returns_first_choice_content
    (cfg : Config) (messages : List Message) (model : Option String)
    (temperature : Option Rat) (max_tokens : Option Nat)
    (provider : ChatRequest → ProviderResult) (r : ChatResponse)
    (c : Choice) (rest : List Choice)
    (hr : provider (chatRequest cfg messages model temperature max_tokens) =
      .success r)
    (hc : r.choices = c :: rest) :
    create_chat_completion cfg messages provider model temperature max_tokens =
      .ok c.message.content := by
  simp [create_chat_completion, hr, hc]

/-- C4 witnessed on a response with two distinct choices: the first one is
returned. -/
theorem chat_completion_returns_first_choice_content_witness :
    (fun _ => ProviderResult.success sampleResponse)
        (chatRequest cfgDirect [] (some "m") none none) =
      .success sampleResponse ∧
    sampleResponse.choices =
      ⟨0, "stop", ⟨"assistant", "hello"⟩⟩ :: [⟨1, "stop", ⟨"assistant", "other"⟩⟩] ∧
    create_chat_completion cfgDirect [] (fun _ => .success sampleResponse)
        (some "m") none none = .ok "hello" :=
  ⟨rfl, rfl,
    chat_completion_returns_first_choice_content cfgDirect [] (some "m") none
      none (fun _ => .success sampleResponse) sampleResponse
      ⟨0, "stop", ⟨"assistant", "hello"⟩⟩ [⟨1, "stop", ⟨"assistant", "other"⟩⟩]
      rfl rfl⟩

/-- C5: with `model=None` the issued request carries `cfg.fast_llm_model`,
and with `temperature=None` it carries `cfg.temperature`; the last conjunct
observes the model through the full `create_chat_completion` call with a
provider that echoes the model field of the request it receives. -/
theorem chat_completion_none_model_defaults
    (cfg : Config) (messages : List Message) (max_tokens : Option Nat) :
    (chatRequest cfg messages none none max_tokens).model =
        some cfg.fast_llm_model ∧
      (chatRequest cfg messages none none max_tokens).temperature =
        cfg.temperature ∧
      create_chat_completion cfg messages
          (fun req => .apiError (req.model.getD "-")) none none max_tokens =
        .error (.apiError cfg.fast_llm_model) := by
  cases h : cfg.use_azure <;>
    simp [chatRequest, create_chat_completion, h]

/-- C6: both gateway functions propagate provider faults: a rate-limit or
generic API fault reported by the provider is re-raised unchanged on the
error channel, never converted into a success value, and the provider is
invoked on exactly one request (no retry). -/
theorem gateway_propagates_provider_faults
    (cfg : Config) (messages : List Message) (model : Option String)
    (temperature : Option Rat) (max_tokens : Option Nat)
    (provider : ChatRequest → ProviderResult) (text : String)
    (eprovider : EmbeddingRequest → EmbProviderResult) (m : String) :
    (provider (chatRequest cfg messages model temperature max_tokens) =
        .rateLimit m →
      create_chat_completion cfg messages provider model temperature max_tokens =
        .error (.rateLimit m)) ∧
    (provider (chatRequest cfg messages model temperature max_tokens) =
        .apiError m →
      create_chat_completion cfg messages provider model temperature max_tokens =
        .error (.apiError m)) ∧
    (eprovider (embeddingRequest cfg text) = .rateLimit m →
      create_embedding_with_ada text cfg eprovider = .error (.rateLimit m)) ∧
    (eprovider (embeddingRequest cfg text) = .apiError m →
      create_embedding_with_ada text cfg eprovider = .error (.apiError m)) := by
  refine ⟨fun h => ?_, fun h => ?_, fun h => ?_, fun h => ?_⟩ <;>
    simp [create_chat_completion, create_embedding_with_ada, h]

/-- C6 witnessed with providers that report each kind of fault. -/
theorem gateway_propagates_provider_faults_witness :
    create_chat_completion cfgDirect [] (fun _ => .rateLimit "rl")
        (some "m") none none = .error (.rateLimit "rl") ∧
    create_chat_completion cfgDirect [] (fun _ => .apiError "bad")
        (some "m") none none = .error (.apiError "bad") ∧
    create_embedding_with_ada "hi" cfgDirect (fun _ => .rateLimit "rl") =
      .error (.rateLimit "rl") ∧
    create_embedding_with_ada "hi" cfgDirect (fun _ => .apiError "bad") =
      .error (.apiError "bad") :=
  ⟨(gateway_propagates_provider_faults cfgDirect [] (some "m") none none
      (fun _ => .rateLimit "rl") "hi" (fun _ => .rateLimit "rl") "rl").1 rfl,
   (gateway_propagates_provider_faults cfgDirect [] (some "m") none none
      (fun _ => .apiError "bad") "hi" (fun _ => .apiError "bad") "bad").2.1 rfl,
   (gateway_propagates_provider_faults cfgDirect [] (some "m") none none
      (fun _ => .rateLimit "rl") "hi" (fun _ => .rateLimit "rl") "rl").2.2.1 rfl,
   (gateway_propagates_provider_faults cfgDirect [] (some "m") none none
      (fun _ => .apiError "bad") "hi" (fun _ => .apiError "bad") "bad").2.2.2 rfl⟩

/-- C7: `call_ai_function` builds exactly the two-message conversation (the
system message embedding the function source and description, then the user
message with the rendered arguments joined by `", "`) and delegates to
`create_chat_completion` with temperature 0 and the given model, defaulting
to `cfg.smart_llm_model`; and the arguments `[1, None, "x"]` render to the
user content `"1, None, x"`. -/
theorem natural_function_call_builds_conversation
    (function : String) (args : List PyArg) (description : String)
    (cfg : Config) (provider : ChatRequest → ProviderResult)
    (model : Option String) :
    call_ai_function function args description cfg provider model =
      create_chat_completion cfg
        [⟨"system",
          "You are now the following python function: ```# " ++ description ++
            "\n" ++ function ++ "```\n\nOnly respond with your `return` value."⟩,
         ⟨"user", String.intercalate ", " (args.map PyArg.render)⟩]
        provider (some (model.getD cfg.smart_llm_model)) (some 0) none ∧
    String.intercalate ", "
        ([PyArg.pyint 1, PyArg.pynone, PyArg.pystr "x"].map PyArg.render) =
      "1, None, x" := by
  refine ⟨?_, by decide⟩
  cases model <;> rfl

/-- C8: the result of `create_embedding_with_ada` is either the embedding
vector extracted from the data entry at index 0 of a successful provider
response, or no vector at all (an error, covering provider faults and an
empty data list); no other value can be produced. -/
theorem embedding_lookup_vector_or_absent (text : String) (cfg : Config)
    (eprovider : EmbeddingRequest → EmbProviderResult) :
    (∃ r e t, eprovider (embeddingRequest cfg text) = .success r ∧
        r.data = e :: t ∧
        create_embedding_with_ada text cfg eprovider = .ok e.embedding) ∨
      (∃ f, create_embedding_with_ada text cfg eprovider = .error f) := by
  cases h : eprovider (embeddingRequest cfg text) with
  | success r =>
    cases hd : r.data with
    | nil =>
      exact Or.inr ⟨.indexError, by simp [create_embedding_with_ada, h, hd]⟩
    | cons e t =>
      exact Or.inl ⟨r, e, t, rfl, hd, by
        simp [create_embedding_with_ada, h, hd]⟩
  | rateLimit m =>
    exact Or.inr ⟨.rateLimit m, by simp [create_embedding_with_ada, h]⟩
  | apiError m =>
    exact Or.inr ⟨.apiError m, by simp [create_embedding_with_ada, h]⟩

/-- C9 counterexample: with the azure path selected, the chat request the
code issues carries the deployment identifier AND still carries the raw
model name (`model="m"` is passed alongside `deployment_id`), contradicting
the claim that the deployment identifier is sent instead of a raw model
name. -/
theorem azure_chat_sends_model_name_counterexample :
    (chatRequest cfgAzure [] (some "m") none none).deployment_id =
        some "azure-m" ∧
      (chatRequest cfgAzure [] (some "m") none none).model ≠ none := by
  constructor <;> decide

/-- C9 amended: with `use_azure` set, both requests carry the deployment
identifier from cfg's lookup and no API key — the embedding request in
place of a model name, while the chat request still also carries the raw
model name; with `use_azure` unset, both requests carry the model name and
`cfg.openai_api_key` directly and no deployment identifier. -/
theorem azure_routing_amended (cfg : Config) (text : String)
    (messages : List Message) (model : Option String)
    (temperature : Option Rat) (max_tokens : Option Nat) :
    (cfg.use_azure = true →
      (chatRequest cfg messages model temperature max_tokens).deployment_id =
          some (cfg.get_azure_deployment_id_for_model
            (model.getD cfg.fast_llm_model)) ∧
        (chatRequest cfg messages model temperature max_tokens).model =
          some (model.getD cfg.fast_llm_model) ∧
        (chatRequest cfg messages model temperature max_tokens).api_key = none ∧
        (embeddingRequest cfg text).engine =
          some (cfg.get_azure_deployment_id_for_model "text-embedding-ada-002") ∧
        (embeddingRequest cfg text).model = none ∧
        (embeddingRequest cfg text).api_key = none) ∧
    (cfg.use_azure = false →
      (chatRequest cfg messages model temperature max_tokens).deployment_id =
          none ∧
        (chatRequest cfg messages model temperature max_tokens).model =
          some (model.getD cfg.fast_llm_model) ∧
        (chatRequest cfg messages model temperature max_tokens).api_key =
          some cfg.openai_api_key ∧
        (embeddingRequest cfg text).engine = none ∧
        (embeddingRequest cfg text).model = some "text-embedding-ada-002" ∧
        (embeddingRequest cfg text).api_key = some cfg.openai_api_key) := by
  refine ⟨fun h => ?_, fun h => ?_⟩ <;>
    cases model <;> simp [chatRequest, embeddingRequest, h]

/-- C9 amended claim, witnessed on the two sample configurations. -/
theorem azure_routing_amended_witness :
    ((chatRequest cfgAzure [] (some "m") none none).deployment_id =
        some "azure-m" ∧
      (chatRequest cfgAzure [] (some "m") none none).model = some "m" ∧
      (chatRequest cfgAzure [] (some "m") none none).api_key = none ∧
      (embeddingRequest cfgAzure "t").engine =
        some "azure-text-embedding-ada-002" ∧
      (embeddingRequest cfgAzure "t").model = none ∧
      (embeddingRequest cfgAzure "t").api_key = none) ∧
    ((chatRequest cfgDirect [] (some "m") none none).deployment_id = none ∧
      (chatRequest cfgDirect [] (some "m") none none).model = some "m" ∧
      (chatRequest cfgDirect [] (some "m") none none).api_key =
        some "sk-key" ∧
      (embeddingRequest cfgDirect "t").engine = none ∧
      (embeddingRequest cfgDirect "t").model =
        some "text-embedding-ada-002" ∧
      (embeddingRequest cfgDirect "t").api_key = some "sk-key") :=
  ⟨(azure_routing_amended cfgAzure "t" [] (some "m") none none).1 rfl,
    (azure_routing_amended cfgDirect "t" [] (some "m") none none).2 rfl⟩

/-- C10: when the model argument is omitted entirely, the request carries
the literal default `"gpt-3.5-turbo"` regardless of `cfg.fast_llm_model`
(the configuration is arbitrary here), while an explicit `model=None`
selects `cfg.fast_llm_model`; the last conjunct observes the default
through the full `create_chat_completion` call with a provider that echoes
the model field of the request it receives. -/
theorem chat_completion_omitted_model_uses_literal_default
    (cfg : Config) (messages : List Message) :
    (chatRequest cfg messages).model = some "gpt-3.5-turbo" ∧
      (chatRequest cfg messages none).model = some cfg.fast_llm_model ∧
      create_chat_completion cfg messages
          (fun req => .apiError (req.model.getD "-")) =
        .error (.apiError "gpt-3.5-turbo") := by
  cases h : cfg.use_azure <;>
    simp [chatRequest, create_chat_completion, h]

end LLMUtils
